import Mathlib

/-!
Verification of the interactive terminal session multiplexer of
`src/src-tauri/src/terminal.rs`.

The subsystem keeps a registry (a `HashMap` behind a single mutex) mapping
session ids to `TerminalInstance` records (pty master, input writer, child
process handle).  `create_terminal` validates the working directory, opens a
pseudoterminal, spawns the shell, acquires a reader and a writer, registers
the record and starts a reader thread that streams base64-encoded output
events and then a single exit event.  `write_to_terminal`,
`resize_terminal`, `close_terminal` and `close_all_terminals` operate on the
registry.

The embedding below models the registry as an association list with the same
insert/remove/lookup semantics as `HashMap`, models the external
pseudoterminal system by an environment record that fixes the outcome of
each fallible OS call, and models resource-releasing OS calls (`kill`,
`wait`, pty open, spawn) as an explicit action trace so that theorems can
speak about which resources an operation touches.
-/

namespace Vinsly

/-- The standard base64 alphabet used by the `base64` crate's `STANDARD`
engine (`A`–`Z`, `a`–`z`, `0`–`9`, `+`, `/`). -/
def b64Alphabet : List Char :=
  "ABCDEFGHIJKLMNOPQRSTUVWXYZabcdefghijklmnopqrstuvwxyz0123456789+/".toList

/-- The alphabet character for a 6-bit value. -/
def b64Char (n : Nat) : Char := b64Alphabet.getD n '?'

/-- Standard base64 encoding of a byte list, three bytes to four characters,
padded with `=` as the `base64` crate's `STANDARD` engine does. -/
def base64EncodeChunks : List Nat → List Char
  | [] => []
  | [b1] =>
      [b64Char (b1 / 4), b64Char (b1 % 4 * 16), '=', '=']
  | [b1, b2] =>
      [b64Char (b1 / 4), b64Char (b1 % 4 * 16 + b2 / 16), b64Char (b2 % 16 * 4), '=']
  | b1 :: b2 :: b3 :: rest =>
      b64Char (b1 / 4) :: b64Char (b1 % 4 * 16 + b2 / 16) ::
        b64Char (b2 % 16 * 4 + b3 / 64) :: b64Char (b3 % 64) :: base64EncodeChunks rest

/-- `BASE64.encode` of the `base64` crate (STANDARD engine, with padding). -/
def base64Encode (bs : List Nat) : String := String.mk (base64EncodeChunks bs)

/-- The 6-bit value of an alphabet character; `none` for a character outside
the standard alphabet (including `=`). -/
def b64Val (c : Char) : Option Nat := b64Alphabet.findIdx? (fun x => x == c)

/-- Standard base64 decoding: groups of four characters, canonical `=`
padding only in the final group, zero trailing bits required, any other
input rejected — as the `base64` crate's `STANDARD` engine does. -/
def base64DecodeChunks : List Char → Option (List Nat)
  | [] => some []
  | c1 :: c2 :: c3 :: c4 :: rest => do
      let v1 ← b64Val c1
      let v2 ← b64Val c2
      if c3 = '=' then
        if c4 = '=' ∧ rest = [] ∧ v2 % 16 = 0 then
          some [v1 * 4 + v2 / 16]
        else none
      else do
        let v3 ← b64Val c3
        if c4 = '=' then
          if rest = [] ∧ v3 % 4 = 0 then
            some [v1 * 4 + v2 / 16, v2 % 16 * 16 + v3 / 4]
          else none
        else do
          let v4 ← b64Val c4
          let tail ← base64DecodeChunks rest
          some ((v1 * 4 + v2 / 16) :: (v2 % 16 * 16 + v3 / 4) :: (v3 % 4 * 64 + v4) :: tail)
  | _ => none

/-- `BASE64.decode` of the `base64` crate; `none` models a `DecodeError`. -/
def base64Decode (s : String) : Option (List Nat) := base64DecodeChunks s.toList

/-- A `TerminalInstance` (terminal.rs lines 26–33).  The opaque OS handles
are modelled by: `child`, an identifier of the child process used by the
kill/wait actions; `written`, the bytes so far accepted by the input writer;
`writeErr`/`flushErr`/`resizeErr`, the outcome the OS would give to a
`write_all`/`flush`/`resize` call on this instance's handles; and the pty
size held by the master. -/
structure TerminalInstance where
  id : String
  child : Nat
  written : List Nat
  writeErr : Option String
  flushErr : Option String
  resizeErr : Option String
  cols : Nat
  rows : Nat
deriving DecidableEq, Repr

/-- The registry state inside `TerminalManager` (a `HashMap<String,
TerminalInstance>`), modelled as an association list with unique-key
`HashMap` operation semantics. -/
abbrev Registry := List (String × TerminalInstance)

/-- The ids present in the registry (`HashMap::keys`). -/
def keys (m : Registry) : List String := m.map (fun p => p.1)

/-- `HashMap::get` / `get_mut`: the record bound to an id, if any. -/
def lookupInst : Registry → String → Option TerminalInstance
  | [], _ => none
  | p :: rest, id => if p.1 = id then some p.2 else lookupInst rest id

/-- `HashMap::remove`: drop the binding of an id. -/
def removeKey : Registry → String → Registry
  | [], _ => []
  | p :: rest, id => if p.1 = id then removeKey rest id else p :: removeKey rest id

/-- `HashMap::insert`: bind an id to a record, replacing any existing
binding for that id. -/
def insertInst : Registry → String → TerminalInstance → Registry
  | [], id, inst => [(id, inst)]
  | p :: rest, id, inst =>
      if p.1 = id then (id, inst) :: rest else p :: insertInst rest id inst

namespace TerminalManager

/-- `TerminalManager::add` (terminal.rs lines 47–49): a plain
`HashMap::insert`, ignoring its return value. -/
def add (m : Registry) (id : String) (inst : TerminalInstance) : Registry :=
  insertInst m id inst

/-- `TerminalManager::remove` (terminal.rs lines 51–53): the removed record,
if any, together with the registry afterwards. -/
def remove (m : Registry) (id : String) : Option TerminalInstance × Registry :=
  (lookupInst m id, removeKey m id)

/-- `TerminalManager::clear` (terminal.rs lines 59–63): collect all ids,
empty the map, return the ids. -/
def clear (m : Registry) : List String × Registry :=
  (keys m, [])

end TerminalManager

/-- A resource-affecting OS call made by an operation.  `openPty` and
`spawn` record successful resource acquisition; `kill` and `wait` record
release/reaping of a child process. -/
inductive Action where
  | openPty
  | spawn (child : Nat)
  | kill (child : Nat)
  | wait (child : Nat)
deriving DecidableEq, Repr

/-- The environment of `create_terminal`: everything the OS and the
`portable_pty`/`dirs` crates decide.  `home` is `dirs::home_dir()`;
`existingDirs` the set of paths for which `Path::exists` is true;
`defaultShell` the result of `get_default_shell()`; the `…Err` fields fix
the outcome of `openpty`, `spawn_command`, `try_clone_reader` and
`take_writer` (`some e` is failure with message `e`); `spawnChild` is the
child handle a successful spawn yields. -/
structure PtySystem where
  home : Option String
  existingDirs : List String
  defaultShell : String
  openPtyErr : Option String
  spawnErr : Option String
  spawnChild : Nat
  cloneReaderErr : Option String
  takeWriterErr : Option String
deriving DecidableEq, Repr

/-- The working directory `create_terminal` uses (terminal.rs lines
99–102): the supplied directory, else `dirs::home_dir()`, else `/`. -/
def resolveCwd (env : PtySystem) (workingDir : Option String) : String :=
  match workingDir with
  | some dir => dir
  | none =>
      match env.home with
      | some h => h
      | none => "/"

/-- The not-found error message (terminal.rs lines 246, 273, 302). -/
def notFoundMsg (id : String) : String := "Terminal not found: " ++ id

/-- `create_terminal` (terminal.rs lines 89–237).  `freshId` is the
generated UUID.  Returns the result, the registry afterwards and the trace
of resource actions.  Mirrors the source: resolve and check the working
directory, open the pty, spawn the shell, clone the reader, take the
writer, then insert the record; each failure propagates with the source's
error message and, in Rust, drops whatever was acquired (no registry
change). -/
def create_terminal (env : PtySystem) (freshId : String) (m : Registry)
    (workingDir shell : Option String) (cols rows : Nat) :
    Except String String × Registry × List Action :=
  let terminalId := freshId
  let cwd := resolveCwd env workingDir
  if !(env.existingDirs.contains cwd) then
    (Except.error ("Working directory does not exist: " ++ cwd), m, [])
  else
    let _shellPath := match shell with
      | some s => s
      | none => env.defaultShell
    match env.openPtyErr with
    | some e => (Except.error ("Failed to open PTY: " ++ e), m, [])
    | none =>
        match env.spawnErr with
        | some e => (Except.error ("Failed to spawn shell: " ++ e), m, [Action.openPty])
        | none =>
            match env.cloneReaderErr with
            | some e =>
                (Except.error ("Failed to clone reader: " ++ e), m,
                  [Action.openPty, Action.spawn env.spawnChild])
            | none =>
                match env.takeWriterErr with
                | some e =>
                    (Except.error ("Failed to get writer: " ++ e), m,
                      [Action.openPty, Action.spawn env.spawnChild])
                | none =>
                    let inst : TerminalInstance :=
                      { id := terminalId, child := env.spawnChild, written := [],
                        writeErr := none, flushErr := none, resizeErr := none,
                        cols := cols, rows := rows }
                    (Except.ok terminalId, TerminalManager.add m terminalId inst,
                      [Action.openPty, Action.spawn env.spawnChild])

/-- `write_to_terminal` (terminal.rs lines 240–264): lock the registry,
`get_mut` the record (not-found otherwise), base64-decode the payload
(input error otherwise), `write_all` the bytes, `flush`; each I/O failure
propagates with the source's message. -/
def write_to_terminal (m : Registry) (terminalId : String) (data : String) :
    Except String Unit × Registry :=
  match lookupInst m terminalId with
  | none => (Except.error (notFoundMsg terminalId), m)
  | some inst =>
      match base64Decode data with
      | none => (Except.error "Failed to decode input", m)
      | some bytes =>
          match inst.writeErr with
          | some e => (Except.error ("Failed to write to terminal: " ++ e), m)
          | none =>
              let inst2 := { inst with written := inst.written ++ bytes }
              match inst.flushErr with
              | some e =>
                  (Except.error ("Failed to flush terminal: " ++ e),
                    insertInst m terminalId inst2)
              | none => (Except.ok (), insertInst m terminalId inst2)

/-- Modelled from the spec: the write operation in the order §4.4 states it
— "decode data from the wire encoding; look up and lock the record; write
all decoded bytes; flush" — i.e. decoding before the registry lookup, for
comparison with `write_to_terminal` as the source orders it. -/
def writeSpecOrder (m : Registry) (terminalId : String) (data : String) :
    Except String Unit × Registry :=
  match base64Decode data with
  | none => (Except.error "Failed to decode input", m)
  | some bytes =>
      match lookupInst m terminalId with
      | none => (Except.error (notFoundMsg terminalId), m)
      | some inst =>
          match inst.writeErr with
          | some e => (Except.error ("Failed to write to terminal: " ++ e), m)
          | none =>
              let inst2 := { inst with written := inst.written ++ bytes }
              match inst.flushErr with
              | some e =>
                  (Except.error ("Failed to flush terminal: " ++ e),
                    insertInst m terminalId inst2)
              | none => (Except.ok (), insertInst m terminalId inst2)

/-- `resize_terminal` (terminal.rs lines 267–286): look up the record
(not-found otherwise) and invoke the master's resize control. -/
def resize_terminal (m : Registry) (terminalId : String) (cols rows : Nat) :
    Except String Unit × Registry :=
  match lookupInst m terminalId with
  | none => (Except.error (notFoundMsg terminalId), m)
  | some inst =>
      match inst.resizeErr with
      | some e => (Except.error ("Failed to resize terminal: " ++ e), m)
      | none => (Except.ok (), insertInst m terminalId { inst with cols := cols, rows := rows })

/-- `close_terminal` (terminal.rs lines 289–304): remove the record; if it
was present, kill the child (failure only logged) and wait for it, result
`Ok`; otherwise a not-found error and no OS calls. -/
def close_terminal (m : Registry) (terminalId : String) :
    Except String Unit × Registry × List Action :=
  match TerminalManager.remove m terminalId with
  | (some inst, m2) => (Except.ok (), m2, [Action.kill inst.child, Action.wait inst.child])
  | (none, _) => (Except.error (notFoundMsg terminalId), m, [])

/-- `close_all_terminals` (terminal.rs lines 307–321): drain the registry,
killing (failure only logged) and waiting on every child, and return the
list of drained ids. -/
def close_all_terminals (m : Registry) :
    Except String (List String) × Registry × List Action :=
  (Except.ok (keys m), [],
    m.foldr (fun p acc => Action.kill p.2.child :: Action.wait p.2.child :: acc) [])

/-- One result of `reader.read(&mut buffer)` in the reader thread:
`ok bytes` a successful read delivering `bytes` (empty on EOF), `err` a
read error. -/
inductive ReadResult where
  | ok (bytes : List Nat)
  | err (msg : String)
deriving DecidableEq, Repr

/-- Whether a read result terminates the reader loop (`Ok(0)` or `Err`). -/
def isTerminal : ReadResult → Bool
  | .ok [] => true
  | .ok (_ :: _) => false
  | .err _ => true

/-- An event emitted on the Tauri event channel: `terminal:output` with the
base64 payload, or `terminal:exit` with an optional exit code
(terminal.rs lines 12–23). -/
inductive TermEvent where
  | output (terminalId : String) (data : String)
  | exit (terminalId : String) (exitCode : Option Int)
deriving DecidableEq, Repr

/-- The output event a nonzero read produces (terminal.rs lines 205–217):
the chunk base64-encoded and tagged with the session id.  (The `err` case
is never reached by the loop; it is given a harmless value to keep the
function total.) -/
def outputOf (id : String) : ReadResult → TermEvent
  | .ok bs => TermEvent.output id (base64Encode bs)
  | .err _ => TermEvent.output id ""

/-- The reader thread's loop (terminal.rs lines 195–234) applied to the
sequence of read results the OS delivers: a nonzero read emits an output
event and continues; `Ok(0)` (EOF) or a read error breaks the loop, after
which the single exit event is emitted.  An exhausted list with no
terminating read models a reader still blocked in `read`: nothing further
has been emitted yet. -/
def readerLoop (id : String) : List ReadResult → List TermEvent
  | [] => []
  | .ok [] :: _ => [TermEvent.exit id none]
  | .ok (b :: bs) :: rest => TermEvent.output id (base64Encode (b :: bs)) :: readerLoop id rest
  | .err _ :: _ => [TermEvent.exit id none]

/-- Whether an event is an exit event. -/
def isExit : TermEvent → Bool
  | .exit _ _ => true
  | .output _ _ => false

/-- The number of exit events in an event list. -/
def countExits (evs : List TermEvent) : Nat := (evs.filter isExit).length

/-- One step of an operation's body, with whether the registry mutex is
held at that step and whether the step is blocking I/O. -/
structure Step where
  lockHeld : Bool
  blocks : Bool
  descr : String
deriving DecidableEq, Repr

/-- The step trace of `write_to_terminal` (terminal.rs lines 240–264): the
`MutexGuard` acquired at line 242 lives until the function returns, so the
lookup, the decode and the blocking `write_all`/`flush` all run with the
registry lock held. -/
def writeSteps : List Step :=
  [⟨false, false, "get_manager"⟩,
   ⟨true, false, "manager.lock"⟩,
   ⟨true, false, "get_mut lookup"⟩,
   ⟨true, false, "BASE64.decode"⟩,
   ⟨true, true, "writer.write_all"⟩,
   ⟨true, true, "writer.flush"⟩]

/-- The step trace of `close_terminal` (terminal.rs lines 289–304): the
`MutexGuard` acquired at line 291 lives until the function returns, so the
removal and the blocking `child.kill`/`child.wait` all run with the
registry lock held. -/
def closeSteps : List Step :=
  [⟨false, false, "get_manager"⟩,
   ⟨true, false, "manager.lock"⟩,
   ⟨true, false, "manager.remove"⟩,
   ⟨true, true, "child.kill"⟩,
   ⟨true, true, "child.wait"⟩]

/-- A concrete registered instance used in concrete evaluations. -/
def instA : TerminalInstance :=
  { id := "a", child := 1, written := [], writeErr := none, flushErr := none,
    resizeErr := none, cols := 80, rows := 24 }

/-- A second concrete instance under the same id as `instA`. -/
def instB : TerminalInstance :=
  { id := "a", child := 2, written := [], writeErr := none, flushErr := none,
    resizeErr := none, cols := 80, rows := 24 }

/-- A pty environment in which every OS call succeeds. -/
def envOk : PtySystem :=
  { home := some "/home/u", existingDirs := ["/home/u"], defaultShell := "/bin/bash",
    openPtyErr := none, spawnErr := none, spawnChild := 7,
    cloneReaderErr := none, takeWriterErr := none }

/-- A pty environment in which opening the pseudoterminal fails. -/
def envBoom : PtySystem :=
  { home := some "/home/u", existingDirs := ["/home/u"], defaultShell := "/bin/bash",
    openPtyErr := some "boom", spawnErr := none, spawnChild := 7,
    cloneReaderErr := none, takeWriterErr := none }

/-! ## Helper lemmas -/

theorem isExit_outputOf (id : String) (r : ReadResult) : isExit (outputOf id r) = false := by
  cases r <;> rfl

theorem readerLoop_terminated (id : String) (pre : List ReadResult) (t : ReadResult)
    (rest : List ReadResult) (hpre : ∀ r ∈ pre, isTerminal r = false)
    (ht : isTerminal t = true) :
    readerLoop id (pre ++ t :: rest) = pre.map (outputOf id) ++ [TermEvent.exit id none] := by
  induction pre with
  | nil =>
      cases t with
      | ok bs =>
          cases bs with
          | nil => simp [readerLoop]
          | cons b bs2 => simp [isTerminal] at ht
      | err e => simp [readerLoop]
  | cons r pre2 ih =>
      have hr : isTerminal r = false := hpre r (by simp)
      have hpre2 : ∀ x ∈ pre2, isTerminal x = false := fun x hx => hpre x (by simp [hx])
      cases r with
      | ok bs =>
          cases bs with
          | nil => simp [isTerminal] at hr
          | cons b bs2 =>
              simp only [List.cons_append, readerLoop, List.map_cons, outputOf]
              exact congrArg _ (ih hpre2)
      | err e => simp [isTerminal] at hr

theorem countExits_outputs_exit (id : String) (l : List ReadResult) :
    countExits (l.map (outputOf id) ++ [TermEvent.exit id none]) = 1 := by
  induction l with
  | nil => rfl
  | cons r rest ih =>
      simp only [List.map_cons, List.cons_append, countExits, List.filter_cons,
        isExit_outputOf] at *
      exact ih

theorem lookup_removeKey (m : Registry) (id : String) :
    lookupInst (removeKey m id) id = none := by
  induction m with
  | nil => rfl
  | cons p rest ih =>
      by_cases h : p.1 = id <;> simp [removeKey, lookupInst, h, ih]

theorem lookup_insertInst_self (m : Registry) (id : String) (inst : TerminalInstance) :
    lookupInst (insertInst m id inst) id = some inst := by
  induction m with
  | nil => simp [insertInst, lookupInst]
  | cons p rest ih =>
      by_cases h : p.1 = id <;> simp [insertInst, lookupInst, h, ih]

theorem lookup_insertInst_ne (m : Registry) (id id2 : String) (inst : TerminalInstance)
    (h : id2 ≠ id) :
    lookupInst (insertInst m id inst) id2 = lookupInst m id2 := by
  induction m with
  | nil =>
      have hne : ¬ id = id2 := fun hc => h hc.symm
      simp [insertInst, lookupInst, hne]
  | cons p rest ih =>
      by_cases hp : p.1 = id
      · subst hp
        have hne : ¬ p.1 = id2 := fun hc => h hc.symm
        simp [insertInst, lookupInst, hne]
      · simp [insertInst, lookupInst, hp, ih]

theorem keys_insertInst (m : Registry) (id : String) (inst inst2 : TerminalInstance) :
    keys (insertInst m id inst) = keys (insertInst m id inst2) := by
  induction m with
  | nil => rfl
  | cons p rest ih =>
      by_cases h : p.1 = id <;> simp [insertInst, keys, h] <;> simpa [keys] using ih

/-! ## Claims about the reader thread -/

/-- C2: after the reader's read stream terminates — whether by a read error
or by a zero-length read (EOF) — the reader loop has emitted exactly one
exit event, the two terminating causes produce identical event streams, and
the exit event is the final event, after the per-chunk output events. -/
theorem reader_emits_exactly_one_exit (id e : String) (pre rest rest2 : List ReadResult)
    (hpre : ∀ r ∈ pre, isTerminal r = false) :
    countExits (readerLoop id (pre ++ ReadResult.err e :: rest)) = 1 ∧
    countExits (readerLoop id (pre ++ ReadResult.ok [] :: rest2)) = 1 ∧
    readerLoop id (pre ++ ReadResult.err e :: rest) =
      readerLoop id (pre ++ ReadResult.ok [] :: rest2) ∧
    readerLoop id (pre ++ ReadResult.err e :: rest) =
      pre.map (outputOf id) ++ [TermEvent.exit id none] := by
  have h1 := readerLoop_terminated id pre (ReadResult.err e) rest hpre rfl
  have h2 := readerLoop_terminated id pre (ReadResult.ok []) rest2 hpre rfl
  refine ⟨?_, ?_, ?_, h1⟩
  · rw [h1]; exact countExits_outputs_exit id pre
  · rw [h2]; exact countExits_outputs_exit id pre
  · rw [h1, h2]

/-- Witness for C2 at a concrete stream: one data chunk then a read error. -/
theorem reader_emits_exactly_one_exit_witness :
    (∀ r ∈ [ReadResult.ok [1]], isTerminal r = false) ∧
    countExits (readerLoop "t" ([ReadResult.ok [1]] ++ ReadResult.err "oops" :: [])) = 1 :=
  ⟨by decide,
    (reader_emits_exactly_one_exit "t" "oops" [ReadResult.ok [1]] [] [] (by decide)).1⟩

/-- C10: every exit event the reader loop emits carries `exit_code = None`;
the implementation never reports a real exit status, for any stream of read
results and either termination cause. -/
theorem reader_exit_code_always_none (id tid : String) (reads : List ReadResult)
    (c : Option Int) (h : TermEvent.exit tid c ∈ readerLoop id reads) : c = none := by
  induction reads with
  | nil => simp [readerLoop] at h
  | cons r rest ih =>
      cases r with
      | ok bs =>
          cases bs with
          | nil =>
              simp [readerLoop] at h
              exact h.2
          | cons b bs2 =>
              simp [readerLoop] at h
              exact ih h
      | err e =>
          simp [readerLoop] at h
          exact h.2

/-- Witness for C10 at a concrete stream ending in EOF. -/
theorem reader_exit_code_always_none_witness :
    TermEvent.exit "t" (none : Option Int) ∈ readerLoop "t" [ReadResult.ok []] ∧
    (none : Option Int) = none :=
  ⟨by simp [readerLoop],
    reader_exit_code_always_none "t" "t" [ReadResult.ok []] none (by simp [readerLoop])⟩

/-! ## Claims about session creation -/

/-- C1: whenever `create_terminal` fails — for any reason, including a pty
open failure, a spawn failure or a reader/writer handle-acquisition failure
— the registry afterwards equals the registry before, and in particular the
fresh id is registered no more than it was before the call. -/
theorem create_terminal_failure_keeps_registry (env : PtySystem) (freshId : String)
    (m : Registry) (wd sh : Option String) (cols rows : Nat)
    (h : ∃ e, (create_terminal env freshId m wd sh cols rows).1 = Except.error e) :
    (create_terminal env freshId m wd sh cols rows).2.1 = m ∧
    ((keys m).contains freshId = false →
      (keys (create_terminal env freshId m wd sh cols rows).2.1).contains freshId = false) := by
  obtain ⟨e, he⟩ := h
  rcases hop : env.openPtyErr with _ | eo <;>
    rcases hsp : env.spawnErr with _ | es <;>
      rcases hcr : env.cloneReaderErr with _ | ec <;>
        rcases htw : env.takeWriterErr with _ | et <;>
          by_cases hdir : env.existingDirs.contains (resolveCwd env wd) = true <;>
            simp_all [create_terminal]

/-- Witness for C1: a concrete environment in which the pty open fails; the
call errors and the one-entry registry is untouched. -/
theorem create_terminal_failure_keeps_registry_witness :
    (∃ e, (create_terminal envBoom "id0" [("a", instA)] none none 80 24).1 = Except.error e) ∧
    (create_terminal envBoom "id0" [("a", instA)] none none 80 24).2.1 = [("a", instA)] :=
  ⟨⟨"Failed to open PTY: boom", rfl⟩,
    (create_terminal_failure_keeps_registry envBoom "id0" [("a", instA)] none none 80 24
      ⟨"Failed to open PTY: boom", rfl⟩).1⟩

/-- C9: with no working directory supplied, `create_terminal` resolves the
working directory to the user's home directory (when one exists); and
whenever the resolved working directory does not exist the call fails with
the configuration error, the registry is unchanged and no resource action
(no pty open, no spawn) has been performed. -/
theorem create_terminal_cwd_default_and_check (env : PtySystem) (freshId : String)
    (m : Registry) (wd sh : Option String) (cols rows : Nat) (hd : String)
    (hhome : env.home = some hd)
    (hne : env.existingDirs.contains (resolveCwd env wd) = false) :
    resolveCwd env none = hd ∧
    create_terminal env freshId m wd sh cols rows =
      (Except.error ("Working directory does not exist: " ++ resolveCwd env wd), m, []) := by
  have hni : resolveCwd env wd ∉ env.existingDirs := by simpa using hne
  constructor
  · simp [resolveCwd, hhome]
  · simp [create_terminal, hni]

/-- Witness for C9: a concrete environment with a home directory and an
empty set of existing directories. -/
theorem create_terminal_cwd_default_and_check_witness :
    ({ envOk with existingDirs := [] } : PtySystem).home = some "/home/u" ∧
    ({ envOk with existingDirs := [] } : PtySystem).existingDirs.contains
      (resolveCwd { envOk with existingDirs := [] } none) = false ∧
    resolveCwd { envOk with existingDirs := [] } none = "/home/u" :=
  ⟨rfl, rfl,
    (create_terminal_cwd_default_and_check { envOk with existingDirs := [] } "id0" [] none none
      80 24 "/home/u" rfl rfl).1⟩

/-- C6 counterexample: `create_terminal` performs no validation of the
dimensions.  Called with `cols = 0` and `rows = 0` in an environment where
every OS call succeeds, it returns `Ok` and registers a session — it does
not fail with a configuration error. -/
theorem create_terminal_zero_dims_accepted :
    (create_terminal envOk "id0" [] none none 0 0).1 = Except.ok "id0" ∧
    keys (create_terminal envOk "id0" [] none none 0 0).2.1 = ["id0"] := by
  exact ⟨rfl, rfl⟩

/-- C6 amended: `create_terminal` never inspects the dimensions; its
result, the registered ids and its resource actions are identical for any
two choices of `cols`/`rows` (zero included) — the dimensions are only
forwarded to the pty open and stored in the record. -/
theorem create_terminal_ignores_dims (env : PtySystem) (freshId : String) (m : Registry)
    (wd sh : Option String) (cols rows cols2 rows2 : Nat) :
    (create_terminal env freshId m wd sh cols rows).1 =
      (create_terminal env freshId m wd sh cols2 rows2).1 ∧
    keys (create_terminal env freshId m wd sh cols rows).2.1 =
      keys (create_terminal env freshId m wd sh cols2 rows2).2.1 ∧
    (create_terminal env freshId m wd sh cols rows).2.2 =
      (create_terminal env freshId m wd sh cols2 rows2).2.2 := by
  rcases hop : env.openPtyErr with _ | eo <;>
    rcases hsp : env.spawnErr with _ | es <;>
      rcases hcr : env.cloneReaderErr with _ | ec <;>
        rcases htw : env.takeWriterErr with _ | et <;>
          by_cases hdir : env.existingDirs.contains (resolveCwd env wd) = true <;>
            simp_all [create_terminal, TerminalManager.add] <;>
              apply keys_insertInst

/-! ## Claims about close and closeAll -/

/-- C4: `close_all_terminals` returns exactly the ids registered at the
time of the call and leaves the registry empty, after which any write,
resize or close — on those ids or any other — returns the not-found
error. -/
theorem close_all_drains_registry (m : Registry) (id data : String) (cols rows : Nat) :
    (close_all_terminals m).1 = Except.ok (keys m) ∧
    (close_all_terminals m).2.1 = [] ∧
    (write_to_terminal (close_all_terminals m).2.1 id data).1 =
      Except.error (notFoundMsg id) ∧
    (resize_terminal (close_all_terminals m).2.1 id cols rows).1 =
      Except.error (notFoundMsg id) ∧
    (close_terminal (close_all_terminals m).2.1 id).1 = Except.error (notFoundMsg id) :=
  ⟨rfl, rfl, rfl, rfl, rfl⟩

/-- C7: after any `close_terminal` call on an id — in particular after the
call that removed the record — a second close on the same id returns the
not-found error and performs no kill/wait OS action, so the session's
resources are never released twice and the call never panics (the model is
a total function). -/
theorem close_terminal_twice_not_found (m : Registry) (id : String) :
    (close_terminal (close_terminal m id).2.1 id).1 = Except.error (notFoundMsg id) ∧
    (close_terminal (close_terminal m id).2.1 id).2.2 = [] := by
  rcases h : lookupInst m id with _ | inst
  · constructor <;> simp [close_terminal, TerminalManager.remove, h]
  · have hstate : (close_terminal m id).2.1 = removeKey m id := by
      simp [close_terminal, TerminalManager.remove, h]
    constructor <;> rw [hstate] <;>
      simp [close_terminal, TerminalManager.remove, lookup_removeKey]

/-! ## Claims about the write path -/

/-- C3 counterexample: the source looks the record up before decoding the
payload.  On an unknown id with a malformed payload, `write_to_terminal`
returns the not-found error, while the spec's decode-first ordering
(`writeSpecOrder`) returns the decode error — the two orderings are
observably different, so the claim's "first decodes, then looks up" is
false of the code. -/
theorem write_order_lookup_before_decode :
    (write_to_terminal [] "x" "!!!").1 = Except.error (notFoundMsg "x") ∧
    (writeSpecOrder [] "x" "!!!").1 = Except.error "Failed to decode input" ∧
    (write_to_terminal [] "x" "!!!").1 ≠ (writeSpecOrder [] "x" "!!!").1 := by
  refine ⟨rfl, rfl, ?_⟩
  intro hc
  rw [show (write_to_terminal [] "x" "!!!").1 = Except.error (notFoundMsg "x") from rfl,
    show (writeSpecOrder [] "x" "!!!").1 = Except.error "Failed to decode input" from rfl] at hc
  exact absurd (Except.error.inj hc) (by decide)

/-- C3 amended: `write_to_terminal` first looks up and locks the record,
then decodes the payload, then writes all decoded bytes and flushes; its
only failure modes are unknown id (not-found), malformed encoding (decode
error) and underlying write/flush failure, each propagated to the caller:
with the record present, the call succeeds exactly when the payload decodes
and neither write nor flush fails. -/
theorem write_to_terminal_characterization (m : Registry) (id data : String) :
    (lookupInst m id = none →
      write_to_terminal m id data = (Except.error (notFoundMsg id), m)) ∧
    (∀ inst, lookupInst m id = some inst → base64Decode data = none →
      write_to_terminal m id data = (Except.error "Failed to decode input", m)) ∧
    (∀ inst bytes, lookupInst m id = some inst → base64Decode data = some bytes →
      inst.writeErr = none → inst.flushErr = none →
      write_to_terminal m id data =
        (Except.ok (), insertInst m id { inst with written := inst.written ++ bytes })) ∧
    (∀ inst, lookupInst m id = some inst →
      ((write_to_terminal m id data).1 = Except.ok () ↔
        base64Decode data ≠ none ∧ inst.writeErr = none ∧ inst.flushErr = none)) := by
  refine ⟨?_, ?_, ?_, ?_⟩
  · intro h; simp [write_to_terminal, h]
  · intro inst h hd; simp [write_to_terminal, h, hd]
  · intro inst bytes h hd hw hf; simp [write_to_terminal, h, hd, hw, hf]
  · intro inst h
    rcases hd : base64Decode data with _ | bytes
    · simp [write_to_terminal, h, hd]
    · rcases hw : inst.writeErr with _ | e
      · rcases hf : inst.flushErr with _ | e2
        · simp [write_to_terminal, h, hd, hw, hf]
        · simp [write_to_terminal, h, hd, hw, hf]
      · simp [write_to_terminal, h, hd, hw]

/-- Witness for the amended C3: a successful write of the decoded bytes of
`"aGk="` (the bytes of `hi`) to a registered session. -/
theorem write_to_terminal_characterization_witness :
    lookupInst [("a", instA)] "a" = some instA ∧
    base64Decode "aGk=" = some [104, 105] ∧
    write_to_terminal [("a", instA)] "a" "aGk=" =
      (Except.ok (), insertInst [("a", instA)] "a"
        { instA with written := instA.written ++ [104, 105] }) :=
  ⟨rfl, rfl,
    (write_to_terminal_characterization [("a", instA)] "a" "aGk=").2.2.1 instA [104, 105]
      rfl rfl rfl rfl⟩

/-! ## Claims about the registry lock -/

/-- C5 counterexample: the claim that no blocking I/O occurs while the
registry lock is held is false of the code: in `write_to_terminal` the
blocking `write_all`/`flush` run with the lock held, and in
`close_terminal` the blocking `kill`/`wait` do. -/
theorem registry_lock_held_across_blocking_io :
    ((writeSteps ++ closeSteps).all fun s => !s.blocks || !s.lockHeld) = false := by
  decide

/-- C5 amended: the registry lock, acquired at the top of
`write_to_terminal` and `close_terminal`, is held for the whole body of
each operation — in particular across the blocking byte-stream
`write_all`/`flush` and across the blocking child `kill`/`wait` — so these
operations are serialized through the registry lock even for unrelated
sessions. -/
theorem blocking_io_runs_under_registry_lock :
    ((writeSteps ++ closeSteps).all fun s => !s.blocks || s.lockHeld) = true ∧
    (writeSteps.any fun s => s.blocks && s.lockHeld) = true ∧
    (closeSteps.any fun s => s.blocks && s.lockHeld) = true := by
  decide

/-! ## Claims about registry insertion -/

/-- C8 counterexample: `TerminalManager::add` is a plain `HashMap::insert`:
inserting under an id that is already present cannot fail and silently
replaces the existing record — the old record (`instA`) is dropped in
favour of the new one (`instB`). -/
theorem add_silently_replaces :
    TerminalManager.add [("a", instA)] "a" instB = [("a", instB)] ∧
    lookupInst (TerminalManager.add [("a", instA)] "a" instB) "a" ≠ some instA := by
  exact ⟨rfl, by decide⟩

/-- C8 amended: after `TerminalManager::add m id inst` the id is bound to
`inst` — a fresh id is added, an id already present is silently replaced —
and every other id's binding is unchanged; the operation has no failure
path, the design relying on freshly generated UUIDs rather than a collision
check. -/
theorem add_binds_id_and_preserves_others (m : Registry) (id id2 : String)
    (inst : TerminalInstance) (h : id2 ≠ id) :
    lookupInst (TerminalManager.add m id inst) id = some inst ∧
    lookupInst (TerminalManager.add m id inst) id2 = lookupInst m id2 :=
  ⟨lookup_insertInst_self m id inst, lookup_insertInst_ne m id id2 inst h⟩

/-- Witness for the amended C8 at a concrete registry and ids. -/
theorem add_binds_id_and_preserves_others_witness :
    ("b" : String) ≠ "a" ∧
    lookupInst (TerminalManager.add [] "a" instA) "a" = some instA :=
  ⟨by decide, (add_binds_id_and_preserves_others [] "a" "b" instA (by decide)).1⟩

end Vinsly
